import Mathlib

/-!  Shallow embedding of the core logic of the AI code review tool
     (src/src/App.tsx): file intake validation and ingestion, API-key
     persistence, and the analysis client, together with theorems settling
     the specification claims C1 to C10. -/

namespace CodeReview

/-- A selected browser file handle: its name and byte size.  Delivery of the
    decoded content is modelled separately by `DecodeOutcome`. -/
structure JsFile where
  name : String
  size : Nat
deriving DecidableEq

/-- Outcome of the asynchronous `FileReader.readAsText` call: `onload` with the
    decoded text, or `onerror`. -/
inductive DecodeOutcome where
  | ok (content : String)
  | err
deriving DecidableEq

/-- The `AnalysisSummary` interface of App.tsx. -/
structure AnalysisSummary where
  totalIssues : Int
  syntaxErrors : Int
  logicIssues : Int
  qualityIssues : Int
  securityIssues : Int
  performanceIssues : Int
  overallScore : Int
deriving DecidableEq

/-- The `AnalysisIssue` interface of App.tsx (`lineNumber` is `string | number`). -/
structure AnalysisIssue where
  id : Int
  lineNumber : Sum Int String
  severity : String
  category : String
  description : String
  suggestion : String
  codeExample : Option String
deriving DecidableEq

/-- The `AnalysisResults` interface of App.tsx. -/
structure AnalysisResults where
  summary : AnalysisSummary
  issues : List AnalysisIssue
deriving DecidableEq

/-- The React state of `App` that the claims are about. -/
structure AppState where
  apiKey : String
  file : Option JsFile
  fileContent : String
  fileLanguage : String
  fileError : String
  isAnalyzing : Bool
  analysisResults : Option AnalysisResults
  analysisError : String
deriving DecidableEq

/-- The `SUPPORTED_EXTENSIONS` table, in source order. -/
def SUPPORTED_EXTENSIONS : List (String × String) :=
  [(".js", "JavaScript"), (".ts", "TypeScript"), (".jsx", "React JSX"), (".tsx", "React TSX"),
   (".py", "Python"), (".java", "Java"), (".cpp", "C++"), (".c", "C"), (".go", "Go"),
   (".rb", "Ruby"), (".php", "PHP"), (".html", "HTML"), (".css", "CSS"), (".scss", "SCSS"),
   (".json", "JSON"), (".md", "Markdown"), (".rs", "Rust"), (".swift", "Swift"),
   (".kt", "Kotlin"), (".cs", "C#")]

/-- `Object.keys(SUPPORTED_EXTENSIONS)` (insertion order). -/
def supportedKeys : List String := SUPPORTED_EXTENSIONS.map Prod.fst

/-- `const MAX_FILE_SIZE = 5 * 1024 * 1024`. -/
def MAX_FILE_SIZE : Nat := 5 * 1024 * 1024

/-- The size-limit error message. -/
def sizeErrorMsg : String := "File size exceeds the maximum limit of 5MB"

/-- The unsupported-type error message, listing the supported keys. -/
def unsupportedErrorMsg : String :=
  "Unsupported file type. Supported types: " ++ String.intercalate ", " supportedKeys

/-- `name.split('.')` on a character list: split on every dot, keeping empty
    segments, never returning an empty list. -/
def splitOnDot : List Char → List (List Char)
  | [] => [[]]
  | c :: t =>
    if c = '.' then [] :: splitOnDot t
    else
      match splitOnDot t with
      | [] => [[c]]
      | h :: r => (c :: h) :: r

/-- The extension the app computes:
    `` `.${selectedFile.name.split('.').pop()?.toLowerCase()}` ``
    (character-wise ASCII lowering models `toLowerCase` here). -/
def fileExtensionOf (name : String) : String :=
  String.mk ('.' :: ((splitOnDot name.toList).getLastD []).map Char.toLower)

/-- `SUPPORTED_EXTENSIONS[ext] || 'Unknown'` (JS `||`: an absent or empty label
    falls back to `'Unknown'`). -/
def languageLabelOf (ext : String) : String :=
  match SUPPORTED_EXTENSIONS.lookup ext with
  | some lbl => if lbl = "" then "Unknown" else lbl
  | none => "Unknown"

/-- The synchronous part of `handleFileChange`, up to (and including) deciding
    whether to start the asynchronous read.  Returns the new state and whether a
    read was started. -/
def handleFileChangeSync (f : JsFile) (s : AppState) : AppState × Bool :=
  let s1 : AppState := { s with fileError := "" }
  if f.size > MAX_FILE_SIZE then
    ({ s1 with fileError := sizeErrorMsg }, false)
  else if !(supportedKeys.contains (fileExtensionOf f.name)) then
    ({ s1 with fileError := unsupportedErrorMsg }, false)
  else
    ({ s1 with file := some f, fileLanguage := languageLabelOf (fileExtensionOf f.name) }, true)

/-- The `reader.onload` continuation. -/
def readerOnload (content : String) (s : AppState) : AppState :=
  { s with fileContent := content }

/-- The `reader.onerror` continuation. -/
def readerOnerror (s : AppState) : AppState :=
  { s with fileError := "Error reading file" }

/-- `handleFileChange` with the read outcome `d` delivered: the state reached
    once the reader callback has fired (when a read was started at all). -/
def handleFileChange (f : JsFile) (d : DecodeOutcome) (s : AppState) : AppState :=
  match handleFileChangeSync f s with
  | (s1, false) => s1
  | (s1, true) =>
    match d with
    | .ok c => readerOnload c s1
    | .err => readerOnerror s1

/-- `handleClearFile`. -/
def handleClearFile (s : AppState) : AppState :=
  { s with file := none, fileContent := "", fileLanguage := "",
           analysisResults := none, analysisError := "" }

/-- The initial component state (every `useState` initializer). -/
def initialState : AppState :=
  { apiKey := "", file := none, fileContent := "", fileLanguage := "", fileError := "",
    isAnalyzing := false, analysisResults := none, analysisError := "" }

/-- C9: for every file with size strictly greater than 5,242,880 bytes,
    `ingest` leaves the Ingested File untouched (in particular unset when it was
    unset) and sets exactly the size-limit error: the result differs from the
    incoming state only in `fileError`.  The limit constant is 5,242,880. -/
theorem C9_size_limit :
    MAX_FILE_SIZE = 5242880 ∧
    ∀ (f : JsFile) (d : DecodeOutcome) (s : AppState), f.size > MAX_FILE_SIZE →
      handleFileChange f d s = { s with fileError := sizeErrorMsg } := by
  refine ⟨rfl, ?_⟩
  intro f d s h
  cases s
  simp [handleFileChange, handleFileChangeSync, h]

/-- Witness for C9 at a concrete oversized file. -/
theorem C9_size_limit_witness :
    (6000000 : Nat) > MAX_FILE_SIZE ∧
    handleFileChange ⟨"huge.py", 6000000⟩ (DecodeOutcome.ok "x") initialState
      = { initialState with fileError := sizeErrorMsg } :=
  ⟨by decide, C9_size_limit.2 ⟨"huge.py", 6000000⟩ (DecodeOutcome.ok "x") initialState (by decide)⟩

/-- Helper: an in-limit file with an unsupported extension is rejected with the
    unsupported-type error and nothing else changes. -/
theorem ingest_unsupported (f : JsFile) (d : DecodeOutcome) (s : AppState)
    (hsz : f.size ≤ MAX_FILE_SIZE)
    (hext : supportedKeys.contains (fileExtensionOf f.name) = false) :
    handleFileChange f d s = { s with fileError := unsupportedErrorMsg } := by
  have h1 : ¬ f.size > MAX_FILE_SIZE := by omega
  have hmem : fileExtensionOf f.name ∉ supportedKeys := by simpa using hext
  cases s
  simp [handleFileChange, handleFileChangeSync, h1, hmem]

/-- C2 (amended): for every file *within the size limit* whose extension is not
    a key of the Supported Extension Table, `ingest` leaves the Ingested File
    untouched (in particular unset when it was unset) and sets exactly the
    unsupported-type error. -/
theorem C2_unsupported_type (f : JsFile) (d : DecodeOutcome) (s : AppState)
    (hsz : f.size ≤ MAX_FILE_SIZE)
    (hext : supportedKeys.contains (fileExtensionOf f.name) = false) :
    handleFileChange f d s = { s with fileError := unsupportedErrorMsg } :=
  ingest_unsupported f d s hsz hext

/-- Counterexample to C2 as stated: an oversized file with an unsupported
    extension gets the size-limit error, not the unsupported-type error —
    the size check runs first. -/
theorem C2_unsupported_counterexample :
    (handleFileChange ⟨"data.xyz", 6000000⟩ DecodeOutcome.err initialState).fileError
      = sizeErrorMsg ∧
    supportedKeys.contains (fileExtensionOf "data.xyz") = false ∧
    sizeErrorMsg ≠ unsupportedErrorMsg := by
  refine ⟨by decide, by decide, by decide⟩

/-- Witness for C2 (amended) at a concrete in-limit unsupported file. -/
theorem C2_unsupported_witness :
    (⟨"notes.txt", 10⟩ : JsFile).size ≤ MAX_FILE_SIZE ∧
    supportedKeys.contains (fileExtensionOf "notes.txt") = false ∧
    handleFileChange ⟨"notes.txt", 10⟩ DecodeOutcome.err initialState
      = { initialState with fileError := unsupportedErrorMsg } :=
  ⟨by decide, by decide,
    C2_unsupported_type ⟨"notes.txt", 10⟩ DecodeOutcome.err initialState (by decide) (by decide)⟩

/-- C4 (amended): when a file passes both validation checks but the decode
    fails, the distinct "Error reading file" state is set and the decoded text
    is *not* installed (`fileContent` is unchanged) — but the file handle
    (name, size) and the language label have already been installed before the
    reader fires. -/
theorem C4_decode_failure (f : JsFile) (s : AppState)
    (hsz : f.size ≤ MAX_FILE_SIZE)
    (hext : supportedKeys.contains (fileExtensionOf f.name) = true) :
    handleFileChange f DecodeOutcome.err s
      = { s with file := some f,
                 fileLanguage := languageLabelOf (fileExtensionOf f.name),
                 fileError := "Error reading file" } := by
  have h1 : ¬ f.size > MAX_FILE_SIZE := by omega
  have hmem : fileExtensionOf f.name ∈ supportedKeys := by simpa using hext
  cases s
  simp [handleFileChange, handleFileChangeSync, readerOnerror, h1, hmem]

/-- Counterexample to C4 as stated: on decode failure of a valid file the file
    handle (hence its name and size) and the language label *are* installed. -/
theorem C4_decode_counterexample :
    (handleFileChange ⟨"a.py", 10⟩ DecodeOutcome.err initialState).file = some ⟨"a.py", 10⟩ ∧
    (handleFileChange ⟨"a.py", 10⟩ DecodeOutcome.err initialState).fileLanguage = "Python" ∧
    (handleFileChange ⟨"a.py", 10⟩ DecodeOutcome.err initialState).fileError
      = "Error reading file" := by
  refine ⟨by decide, by decide, by decide⟩

/-- Witness for C4 (amended) at a concrete valid file whose decode fails. -/
theorem C4_decode_witness :
    (⟨"b.rs", 20⟩ : JsFile).size ≤ MAX_FILE_SIZE ∧
    supportedKeys.contains (fileExtensionOf "b.rs") = true ∧
    handleFileChange ⟨"b.rs", 20⟩ DecodeOutcome.err initialState
      = { initialState with file := some ⟨"b.rs", 20⟩,
                            fileLanguage := languageLabelOf (fileExtensionOf "b.rs"),
                            fileError := "Error reading file" } :=
  ⟨by decide, by decide, C4_decode_failure ⟨"b.rs", 20⟩ initialState (by decide) (by decide)⟩

/-- Splitting a dot-free character list on dots yields the singleton list. -/
theorem splitOnDot_no_dot (l : List Char) (h : '.' ∉ l) : splitOnDot l = [l] := by
  induction l with
  | nil => rfl
  | cons c t ih =>
    have hc : c ≠ '.' := fun hcc => h (hcc ▸ List.mem_cons_self c t)
    have ht : '.' ∉ t := fun htt => h (List.mem_cons_of_mem c htt)
    simp [splitOnDot, hc, ih ht]

/-- C10 (amended): for a file whose name contains no dot, the computed
    extension is '.' followed by the entire lowercased name; within the size
    limit such a file is rejected with the unsupported-type error *unless* that
    string happens itself to be a key of the table (e.g. a file literally named
    "js"), in which case it is accepted. -/
theorem C10_dotless (f : JsFile) (d : DecodeOutcome) (s : AppState)
    (hnd : '.' ∉ f.name.toList) :
    fileExtensionOf f.name = String.mk ('.' :: f.name.toList.map Char.toLower) ∧
    (f.size ≤ MAX_FILE_SIZE →
      supportedKeys.contains (fileExtensionOf f.name) = false →
      handleFileChange f d s = { s with fileError := unsupportedErrorMsg }) := by
  constructor
  · rw [fileExtensionOf, splitOnDot_no_dot f.name.toList hnd]
    simp
  · intro hsz hext
    exact ingest_unsupported f d s hsz hext

/-- Counterexample to C10 as stated: a dot-free file named "js" computes
    extension ".js", which *is* a key of the table, so the file is accepted
    (no error, file installed, labelled JavaScript) rather than rejected. -/
theorem C10_dotless_counterexample :
    ('.' ∉ ("js" : String).toList) ∧
    fileExtensionOf "js" = ".js" ∧
    (handleFileChange ⟨"js", 10⟩ (DecodeOutcome.ok "x") initialState).fileError = "" ∧
    (handleFileChange ⟨"js", 10⟩ (DecodeOutcome.ok "x") initialState).file = some ⟨"js", 10⟩ ∧
    (handleFileChange ⟨"js", 10⟩ (DecodeOutcome.ok "x") initialState).fileLanguage
      = "JavaScript" := by
  refine ⟨by decide, by decide, by decide, by decide, by decide⟩

/-- Witness for C10 (amended) at a concrete dot-free unsupported name. -/
theorem C10_dotless_witness :
    ('.' ∉ ("readme" : String).toList) ∧
    fileExtensionOf "readme" = String.mk ('.' :: ("readme" : String).toList.map Char.toLower) ∧
    handleFileChange ⟨"readme", 10⟩ DecodeOutcome.err initialState
      = { initialState with fileError := unsupportedErrorMsg } :=
  ⟨by decide,
    (C10_dotless ⟨"readme", 10⟩ DecodeOutcome.err initialState (by decide)).1,
    (C10_dotless ⟨"readme", 10⟩ DecodeOutcome.err initialState (by decide)).2
      (by decide) (by decide)⟩

/-- Mount effect: `localStorage.getItem('deepseekApiKey')`; the stored value is
    installed only when present and truthy (non-empty). -/
def loadApiKeyOp (store : Option String) (s : AppState) : AppState :=
  match store with
  | some k => if k = "" then s else { s with apiKey := k }
  | none => s

/-- `setApiKey(v)` together with the persistence effect
    `if (apiKey) localStorage.setItem('deepseekApiKey', apiKey)`:
    a falsy (empty) key is *not* written to the store. -/
def setApiKeyOp (v : String) (s : AppState) (store : Option String) :
    AppState × Option String :=
  ({ s with apiKey := v }, if v = "" then store else some v)

/-- `handleClearApiKey`: clear the in-memory key and remove the stored entry. -/
def handleClearApiKey (s : AppState) (_store : Option String) :
    AppState × Option String :=
  ({ s with apiKey := "" }, none)

/-- The missing-credential precondition message. -/
def missingKeyMsg : String := "Please enter your Deepseek API key"

/-- The missing-file precondition message. -/
def missingFileMsg : String := "Please upload a file to analyze"

/-- The parse-failure message of the inner catch. -/
def parseErrorMsg : String := "Error parsing analysis results. Please try again."

/-- The message the outer catch installs for a thrown
    `API error: ${status} ${statusText}`. -/
def transportErrorMsg (status : Nat) (statusText : String) : String :=
  "Error analyzing code: API error: " ++ toString status ++ " " ++ statusText

/-- The remote response as the app consumes it: HTTP status, reason phrase, and
    the assistant reply text `data.choices[0].message.content`. -/
structure HttpResponse where
  status : Nat
  statusText : String
  body : String
deriving DecidableEq

/-- `response.ok`: the status lies in the range 200..299. -/
def responseOk (r : HttpResponse) : Bool :=
  decide (200 ≤ r.status) && decide (r.status ≤ 299)

/-- Does `pat` occur as a prefix of the second list? -/
def startsWithL : List Char → List Char → Bool
  | [], _ => true
  | _ :: _, [] => false
  | p :: ps, c :: cs => p == c && startsWithL ps cs

/-- Split at the first occurrence of `pat`: the text before it and the text
    after it, or `none` when `pat` does not occur. -/
def splitFirstOn (pat : List Char) : List Char → Option (List Char × List Char)
  | [] => if startsWithL pat [] then some ([], []) else none
  | c :: t =>
    if startsWithL pat (c :: t) then some ([], (c :: t).drop pat.length)
    else (splitFirstOn pat t).map fun pr => (c :: pr.1, pr.2)

/-- The opening delimiter of the fenced-block regex. -/
def fencedOpen : List Char := "```json\n".toList

/-- The closing delimiter of the fenced-block regex. -/
def fencedClose : List Char := "\n```".toList

/-- The first match of the regex for a fenced code block labelled json with a
    lazy capture: the whole match together with the captured block content
    (the text between the first opening delimiter and the next closing one). -/
def fencedMatch (l : List Char) : Option (List Char × List Char) :=
  match splitFirstOn fencedOpen l with
  | none => none
  | some (_, rest) =>
    match splitFirstOn fencedClose rest with
    | none => none
    | some (cap, _) => some (fencedOpen ++ cap ++ fencedClose, cap)

/-- Literal open brace character. -/
def openBrace : Char := Char.ofNat 123

/-- Literal close brace character. -/
def closeBrace : Char := Char.ofNat 125

/-- The leftmost match of the greedy bare-object regex: the span from the first
    open brace through the last close brace of the text, when that close brace
    follows the open one; otherwise no match. -/
def braceMatch (l : List Char) : Option (List Char) :=
  let fromBrace := l.dropWhile (fun c => !(c == openBrace))
  let upToLast := (fromBrace.reverse.dropWhile (fun c => !(c == closeBrace))).reverse
  if upToLast.isEmpty then none else some upToLast

/-- The jsonContent selection of `analyzeCode`:
    `resultText.match(fencedRegex) || resultText.match(braceRegex)`, then
    `jsonMatch ? jsonMatch[1] || jsonMatch[0] : resultText` (for the fenced
    match an empty capture is falsy, so the whole match is used). -/
def extractJson (resultText : String) : String :=
  match fencedMatch resultText.toList with
  | some (m0, cap) => if cap.isEmpty then String.mk m0 else String.mk cap
  | none =>
    match braceMatch resultText.toList with
    | some m => String.mk m
    | none => resultText

/-- The precondition checks and synchronous prefix of `analyzeCode`; the
    returned Bool records whether the network request was issued. -/
def analyzeStart (s : AppState) : AppState × Bool :=
  if s.apiKey = "" then ({ s with analysisError := missingKeyMsg }, false)
  else if s.fileContent = "" then ({ s with analysisError := missingFileMsg }, false)
  else ({ s with isAnalyzing := true, analysisError := "", analysisResults := none }, true)

/-- Completion of `analyzeCode` once the response has arrived.  `parseJson`
    stands for the platform `JSON.parse` applied to the selected span (`none`
    models a parse exception); the `finally` clause clears `isAnalyzing` on
    every path. -/
def analyzeComplete (parseJson : String → Option AnalysisResults)
    (r : HttpResponse) (s : AppState) : AppState :=
  if responseOk r then
    match parseJson (extractJson r.body) with
    | some results => { s with analysisResults := some results, isAnalyzing := false }
    | none => { s with analysisError := parseErrorMsg, isAnalyzing := false }
  else
    { s with analysisError := transportErrorMsg r.status r.statusText,
             isAnalyzing := false }

/-- The Analyze button gate: `disabled={!fileContent || !apiKey || isAnalyzing}`. -/
def analyzeButtonDisabled (s : AppState) : Bool :=
  s.fileContent == "" || s.apiKey == "" || s.isAnalyzing

/-- Clicking the Analyze button: a no-op while the control is disabled,
    otherwise the start of `analyzeCode`. -/
def triggerAnalyze (s : AppState) : AppState × Bool :=
  if analyzeButtonDisabled s then (s, false) else analyzeStart s

/-- Modelled from the spec: depth-counting scan used to delimit the first
    top-level brace span. -/
def balancedFrom : List Char → Nat → List Char → Option (List Char)
  | [], _, _ => none
  | c :: t, d, acc =>
    if c == closeBrace then
      if d = 1 then some ((c :: acc).reverse) else balancedFrom t (d - 1) (c :: acc)
    else if c == openBrace then balancedFrom t (d + 1) (c :: acc)
    else balancedFrom t d (c :: acc)

/-- Modelled from the spec: "the first top-level {...} span in the text" — the
    first open brace together with everything up to its matching close brace. -/
def firstTopLevelSpan : List Char → Option (List Char)
  | [] => none
  | c :: t => if c == openBrace then balancedFrom t 1 [c] else firstTopLevelSpan t

/-- A concrete analysis result used by counterexamples and witnesses. -/
def sampleResults : AnalysisResults :=
  ⟨⟨0, 0, 0, 0, 0, 0, 100⟩, []⟩

/-- A parse oracle that always fails, as `JSON.parse` does on non-JSON text. -/
def noParse : String → Option AnalysisResults := fun _ => none

/-- A previous analysis state: a file was ingested and analysed. -/
def previousAnalyzedState : AppState :=
  { initialState with apiKey := "sk-abc", file := some ⟨"old.py", 5⟩,
                      fileContent := "print(1)", fileLanguage := "Python",
                      analysisResults := some sampleResults }

/-- Counterexample to C3 as stated: ingesting a new file while a previous
    Analysis Result is displayed installs the new file but leaves the previous
    result in place — it is not cleared before or with the installation. -/
theorem C3_result_counterexample :
    previousAnalyzedState.analysisResults = some sampleResults ∧
    (handleFileChange ⟨"new.js", 7⟩ (DecodeOutcome.ok "let x = 1") previousAnalyzedState).file
      = some ⟨"new.js", 7⟩ ∧
    (handleFileChange ⟨"new.js", 7⟩ (DecodeOutcome.ok "let x = 1") previousAnalyzedState).analysisResults
      = some sampleResults := by
  refine ⟨by decide, by decide, by decide⟩

/-- C3 (amended): a new file ingestion never touches the Analysis Result — the
    previous result stays displayed next to the new file; the result is cleared
    only by the explicit clear action (atomically with clearing the file) or at
    the start of a new analyze run. -/
theorem C3_result_clearing :
    (∀ (f : JsFile) (d : DecodeOutcome) (s : AppState),
      (handleFileChange f d s).analysisResults = s.analysisResults) ∧
    (∀ s : AppState,
      (handleClearFile s).analysisResults = none ∧ (handleClearFile s).file = none ∧
      (handleClearFile s).fileContent = "") ∧
    (∀ s : AppState, (analyzeStart s).2 = true → (analyzeStart s).1.analysisResults = none) := by
  refine ⟨?_, ?_, ?_⟩
  · intro f d s
    cases s
    unfold handleFileChange handleFileChangeSync
    cases d <;> split_ifs <;> rfl
  · intro s
    exact ⟨rfl, rfl, rfl⟩
  · intro s h
    unfold analyzeStart at h ⊢
    split_ifs at h ⊢
    simp_all

/-- Witness for C3 (amended), discharging the hypothesis of its last conjunct
    at a concrete ready state. -/
theorem C3_result_witness :
    (analyzeStart previousAnalyzedState).2 = true ∧
    (analyzeStart previousAnalyzedState).1.analysisResults = none :=
  ⟨by decide, C3_result_clearing.2.2 previousAnalyzedState (by decide)⟩

/-- Counterexample to C5 as stated: with `"sk-abc"` stored, `set("")` updates
    the current credential to the empty string but persists nothing (the write
    is guarded by truthiness), so a fresh `load()` yields `"sk-abc"`, not `""`. -/
theorem C5_persistence_counterexample :
    (setApiKeyOp "" (setApiKeyOp "sk-abc" initialState none).1
        (setApiKeyOp "sk-abc" initialState none).2).1.apiKey = "" ∧
    (setApiKeyOp "" (setApiKeyOp "sk-abc" initialState none).1
        (setApiKeyOp "sk-abc" initialState none).2).2 = some "sk-abc" ∧
    (loadApiKeyOp (setApiKeyOp "" (setApiKeyOp "sk-abc" initialState none).1
        (setApiKeyOp "sk-abc" initialState none).2).2 initialState).apiKey = "sk-abc" ∧
    ("sk-abc" : String) ≠ "" := by
  refine ⟨by decide, by decide, by decide, by decide⟩

/-- C5 (amended): for every *non-empty* credential v, `set(v)` persists
    immediately, so a fresh `load()` after restart yields v; and `clear()`
    followed by a fresh `load()` yields no credential. -/
theorem C5_persistence (v : String) (s : AppState) (store : Option String)
    (hv : v ≠ "") :
    (loadApiKeyOp (setApiKeyOp v s store).2 initialState).apiKey = v ∧
    (loadApiKeyOp (handleClearApiKey s store).2 initialState).apiKey = "" := by
  constructor
  · simp [setApiKeyOp, loadApiKeyOp, hv]
  · rfl

/-- Witness for C5 (amended) at the spec's own example credential. -/
theorem C5_persistence_witness :
    ("sk-abc" : String) ≠ "" ∧
    (loadApiKeyOp (setApiKeyOp "sk-abc" initialState none).2 initialState).apiKey = "sk-abc" ∧
    (loadApiKeyOp (handleClearApiKey initialState none).2 initialState).apiKey = "" :=
  ⟨by decide, (C5_persistence "sk-abc" initialState none (by decide)).1,
    (C5_persistence "sk-abc" initialState none (by decide)).2⟩

/-- String append acts as list append on the underlying data. -/
theorem data_append_local (s t : String) : (s ++ t).data = s.data ++ t.data := rfl

/-- The transport error message never coincides with the parse error message:
    they already differ within their first seven characters. -/
theorem transport_ne_parse (st : Nat) (stx : String) :
    transportErrorMsg st stx ≠ parseErrorMsg := by
  intro h
  have hd : ("Error analyzing code: API error: " : String).data
      ++ ((toString st).data ++ ((" " : String).data ++ stx.data)) = parseErrorMsg.data := by
    have h2 := congrArg String.data h
    simpa [transportErrorMsg, data_append_local, List.append_assoc] using h2
  have h7 : (("Error analyzing code: API error: " : String).data
      ++ ((toString st).data ++ ((" " : String).data ++ stx.data))).take 7
      = parseErrorMsg.data.take 7 := by rw [hd]
  rw [List.take_append_of_le_length (by decide)] at h7
  exact absurd h7 (by decide)

/-- C6: triggering analyze through its control while a request is pending is a
    no-op and issues no second network call; the analyzing flag is set exactly
    when the request is issued, and every completion path — success, transport
    failure, parse failure — clears it. -/
theorem C6_reentry :
    (∀ s : AppState, s.isAnalyzing = true → triggerAnalyze s = (s, false)) ∧
    (∀ s : AppState, (analyzeStart s).2 = true → (analyzeStart s).1.isAnalyzing = true) ∧
    (∀ (p : String → Option AnalysisResults) (r : HttpResponse) (s : AppState),
      (analyzeComplete p r s).isAnalyzing = false) := by
  refine ⟨?_, ?_, ?_⟩
  · intro s h
    simp [triggerAnalyze, analyzeButtonDisabled, h]
  · intro s h
    unfold analyzeStart at h ⊢
    split_ifs at h ⊢
    simp_all
  · intro p r s
    unfold analyzeComplete
    split_ifs
    · cases p (extractJson r.body) <;> rfl
    · rfl

/-- Witness for C6, discharging the hypotheses at concrete states. -/
theorem C6_reentry_witness :
    ({ previousAnalyzedState with isAnalyzing := true } : AppState).isAnalyzing = true ∧
    triggerAnalyze { previousAnalyzedState with isAnalyzing := true }
      = ({ previousAnalyzedState with isAnalyzing := true }, false) ∧
    (analyzeStart previousAnalyzedState).2 = true ∧
    (analyzeStart previousAnalyzedState).1.isAnalyzing = true ∧
    (analyzeComplete noParse ⟨500, "Internal Server Error", ""⟩ previousAnalyzedState).isAnalyzing
      = false :=
  ⟨rfl, C6_reentry.1 { previousAnalyzedState with isAnalyzing := true } rfl,
    by decide, C6_reentry.2.1 previousAnalyzedState (by decide),
    C6_reentry.2.2 noParse ⟨500, "Internal Server Error", ""⟩ previousAnalyzedState⟩

/-- C7: analyze checks its preconditions before any network activity: with no
    credential it issues no call and sets exactly the missing-API-key error;
    with a credential but empty ingested text it issues no call and sets
    exactly the missing-file error; the two messages are distinct. -/
theorem C7_preconditions :
    (∀ s : AppState, s.apiKey = "" →
      analyzeStart s = ({ s with analysisError := missingKeyMsg }, false)) ∧
    (∀ s : AppState, s.apiKey ≠ "" → s.fileContent = "" →
      analyzeStart s = ({ s with analysisError := missingFileMsg }, false)) ∧
    missingKeyMsg ≠ missingFileMsg := by
  refine ⟨?_, ?_, by decide⟩
  · intro s h
    simp [analyzeStart, h]
  · intro s hk hc
    simp [analyzeStart, hk, hc]

/-- Witness for C7 at concrete states missing the credential and the file. -/
theorem C7_preconditions_witness :
    analyzeStart initialState
      = ({ initialState with analysisError := missingKeyMsg }, false) ∧
    analyzeStart { initialState with apiKey := "sk-abc" }
      = ({ initialState with apiKey := "sk-abc", analysisError := missingFileMsg }, false) :=
  ⟨C7_preconditions.1 initialState rfl,
    C7_preconditions.2.1 { initialState with apiKey := "sk-abc" } (by decide) rfl⟩

/-- C8: for every non-2xx response, analyze fails with the transport error
    carrying the status code and reason phrase, never reads the body or invokes
    the parser, and leaves the Analysis Result as it was (unset when unset). -/
theorem C8_transport (p : String → Option AnalysisResults) (r : HttpResponse)
    (s : AppState) (h : responseOk r = false) :
    analyzeComplete p r s
      = { s with analysisError := transportErrorMsg r.status r.statusText,
                 isAnalyzing := false } ∧
    (∀ (b : String) (p' : String → Option AnalysisResults),
      analyzeComplete p' { r with body := b } s = analyzeComplete p r s) ∧
    (s.analysisResults = none → (analyzeComplete p r s).analysisResults = none) := by
  have hb : ∀ (b : String), responseOk { r with body := b } = false := fun _ => h
  refine ⟨?_, ?_, ?_⟩
  · simp [analyzeComplete, h]
  · intro b p'
    simp [analyzeComplete, h, hb b]
  · intro hres
    simp [analyzeComplete, h, hres]

/-- Witness for C8 at the spec's mocked 500 response. -/
theorem C8_transport_witness :
    responseOk ⟨500, "Internal Server Error", "ignored body"⟩ = false ∧
    analyzeComplete noParse ⟨500, "Internal Server Error", "ignored body"⟩
        (analyzeStart previousAnalyzedState).1
      = { (analyzeStart previousAnalyzedState).1 with
            analysisError := transportErrorMsg 500 "Internal Server Error",
            isAnalyzing := false } ∧
    (analyzeComplete noParse ⟨500, "Internal Server Error", "ignored body"⟩
        (analyzeStart previousAnalyzedState).1).analysisResults = none :=
  ⟨by decide,
    (C8_transport noParse ⟨500, "Internal Server Error", "ignored body"⟩
      (analyzeStart previousAnalyzedState).1 (by decide)).1,
    (C8_transport noParse ⟨500, "Internal Server Error", "ignored body"⟩
      (analyzeStart previousAnalyzedState).1 (by decide)).2.2 (by decide)⟩

/-- Reply text holding two separate top-level objects, refuting C1's
    description of the fallback span. -/
def C1text : String := "pre \x7b\"a\":1\x7d mid \x7b\"b\":2\x7d post"

/-- The first top-level brace span of `C1text`. -/
def C1firstSpan : String := "\x7b\"a\":1\x7d"

/-- A parse oracle consistent with `JSON.parse` on the spans of `C1text`: the
    first object alone parses, the greedy two-object span does not. -/
def C1oracle : String → Option AnalysisResults :=
  fun t => if t = C1firstSpan then some sampleResults else none

/-- Counterexample to C1 as stated: `C1text` has no fenced block and its first
    top-level brace span is `C1firstSpan`, yet the code selects the greedy span
    from the first open brace to the last close brace; with an oracle that
    parses exactly the first span, analyze therefore reports a parse error and
    retains no result where the claim predicts a successful parse. -/
theorem C1_extraction_counterexample :
    fencedMatch C1text.toList = none ∧
    firstTopLevelSpan C1text.toList = some C1firstSpan.toList ∧
    extractJson C1text = "\x7b\"a\":1\x7d mid \x7b\"b\":2\x7d" ∧
    C1oracle C1firstSpan = some sampleResults ∧
    (analyzeComplete C1oracle ⟨200, "OK", C1text⟩ (analyzeStart previousAnalyzedState).1).analysisError
      = parseErrorMsg ∧
    (analyzeComplete C1oracle ⟨200, "OK", C1text⟩ (analyzeStart previousAnalyzedState).1).analysisResults
      = none := by
  refine ⟨by decide, by decide, by decide, by decide, by decide, by decide⟩

/-- C1 (amended): for every successful response, the payload span is chosen by
    trying, in order: a fenced code block labelled json (its capture, or the
    whole match when the capture is empty); if absent, the greedy span from the
    first open brace through the last close brace of the text; if neither
    matches, the entire reply text.  If parsing the chosen span fails, exactly
    the Parse error — distinct from every Transport error — is set and no
    partial Analysis Result is retained. -/
theorem C1_extraction :
    (∀ (t : String) (m0 cap : List Char), fencedMatch t.toList = some (m0, cap) →
      extractJson t = (if cap.isEmpty then String.mk m0 else String.mk cap)) ∧
    (∀ (t : String) (sp : List Char), fencedMatch t.toList = none →
      braceMatch t.toList = some sp → extractJson t = String.mk sp) ∧
    (∀ t : String, fencedMatch t.toList = none → braceMatch t.toList = none →
      extractJson t = t) ∧
    (∀ (p : String → Option AnalysisResults) (r : HttpResponse) (s : AppState),
      responseOk r = true → p (extractJson r.body) = none →
      analyzeComplete p r s
        = { s with analysisError := parseErrorMsg, isAnalyzing := false }) ∧
    (∀ (st : Nat) (stx : String), transportErrorMsg st stx ≠ parseErrorMsg) := by
  refine ⟨?_, ?_, ?_, ?_, transport_ne_parse⟩
  · intro t m0 cap h
    simp only [String.toList] at h
    simp [extractJson, h]
  · intro t sp h1 h2
    simp only [String.toList] at h1 h2
    simp [extractJson, h1, h2]
  · intro t h1 h2
    simp only [String.toList] at h1 h2
    simp [extractJson, h1, h2]
  · intro p r s hok hp
    simp [analyzeComplete, hok, hp]

/-- Witness for C1 (amended): a fenced reply is reduced to its block content,
    and a prose-only reply makes the always-failing oracle yield exactly the
    parse error with no result retained. -/
theorem C1_extraction_witness :
    fencedMatch ("x ```json\n\x7b\x7d\n``` y" : String).toList
      = some (("```json\n\x7b\x7d\n```" : String).toList, ("\x7b\x7d" : String).toList) ∧
    extractJson "x ```json\n\x7b\x7d\n``` y" = "\x7b\x7d" ∧
    responseOk ⟨200, "OK", "plain prose"⟩ = true ∧
    noParse (extractJson "plain prose") = none ∧
    analyzeComplete noParse ⟨200, "OK", "plain prose"⟩ (analyzeStart previousAnalyzedState).1
      = { (analyzeStart previousAnalyzedState).1 with
            analysisError := parseErrorMsg, isAnalyzing := false } :=
  ⟨by decide,
    C1_extraction.1 "x ```json\n\x7b\x7d\n``` y"
      ("```json\n\x7b\x7d\n```" : String).toList ("\x7b\x7d" : String).toList (by decide),
    by decide, by decide,
    C1_extraction.2.2.2.1 noParse ⟨200, "OK", "plain prose"⟩
      (analyzeStart previousAnalyzedState).1 (by decide) (by decide)⟩

end CodeReview
